import Mathlib

/-!
Verification development for the `ferl_demos` control loop.

The definitions below are shallow embeddings of the Python sources:
  * `src/ferl_demos/controllers/pid.py` (class `PID`)
  * `src/ferl_demos/demo_recorder.py` (class `TestVel`)

Machine floats are modelled by rationals; the timestep `dt`, which the code
explicitly tests for NaN / infinity, is modelled by the four-way type
`PyFloat`.  Numpy column vectors of shape (n,1) become `Vec n`, numpy square
matrices of shape (n,n) become `Mat n`, and the numpy broadcast product of an
(n,n) array with an (n,1) array becomes `bmul`.
-/

namespace FerlDemos

/-- Model of a Python float where the code distinguishes finite values from
NaN and the two infinities (the `dt` argument of `PID.update_PID`). -/
inductive PyFloat where
  | fin : ℚ → PyFloat
  | nan : PyFloat
  | inf : PyFloat
  | ninf : PyFloat
deriving DecidableEq

/-- The guard `dt == 0 or math.isnan(dt) or math.isinf(dt)` of
`PID.update_PID` (pid.py line 211). -/
def PyFloat.isDegenerate : PyFloat → Bool
  | .fin q => q == 0
  | .nan => true
  | .inf => true
  | .ninf => true

/-- A numpy column vector of shape (n,1). -/
abbrev Vec (n : ℕ) := Fin n → ℚ

/-- A numpy square matrix of shape (n,n). -/
abbrev Mat (n : ℕ) := Fin n → Fin n → ℚ

/-- Numpy elementwise `*` of an (n,n) gain with an (n,1) column vector:
the column broadcasts across the columns of the matrix. -/
def bmul {n : ℕ} (g : Mat n) (v : Vec n) : Mat n := fun i j => g i j * v i

/-- A matrix is diagonal: every off-diagonal entry is zero.  The per-DOF
gain vectors of the spec's GainSet are carried as diagonal matrices (the
class docstring of `PID` takes square-matrix gains). -/
abbrev IsDiag {n : ℕ} (m : Mat n) : Prop := ∀ i j : Fin n, i ≠ j → m i j = 0

/-- The fields of the Python `PID` object (pid.py lines 100-125): gains and
integral bounds as set by `set_gains`, plus the mutable controller state
zeroed by `reset`. -/
structure PIDState (n : ℕ) where
  p_gain : Mat n
  i_gain : Mat n
  d_gain : Mat n
  i_min : Vec n
  i_max : Vec n
  p_error_last : Vec n
  p_error : Vec n
  d_error : Vec n
  i_error : Vec n
  cmd : Mat n
  last_time : Option ℚ

namespace PID

/-- `PID.reset` (pid.py lines 100-108): zeroes the error state and the
stored command, clears the clock reference, keeps the gains. -/
def reset {n : ℕ} (s : PIDState n) : PIDState n :=
  { s with
    p_error_last := fun _ => 0
    p_error := fun _ => 0
    d_error := fun _ => 0
    i_error := fun _ => 0
    cmd := fun _ _ => 0
    last_time := none }

/-- `PID.set_gains` (pid.py lines 110-125): replaces the gain set, leaving
the controller state untouched. -/
def set_gains {n : ℕ} (s : PIDState n) (p i d : Mat n) (imin imax : Vec n) :
    PIDState n :=
  { s with p_gain := p, i_gain := i, d_gain := d, i_min := imin, i_max := imax }

/-- Body of `PID.update_PID` (pid.py lines 210-238) once the timestep `dt`
is in hand: the unconditional `self._p_error = p_error` write, the
degenerate-dt early return of a fresh zero matrix, then the proportional,
integral and derivative terms summed into the stored command. -/
def update_core {n : ℕ} (s0 : PIDState n) (p_error : Vec n) (dt : PyFloat) :
    Mat n × PIDState n :=
  let s : PIDState n := { s0 with p_error := p_error }
  match dt with
  | .fin q =>
      if q = 0 then ((fun _ _ => 0), s)
      else
        let i_error : Vec n := fun i => s.i_error i + q * s.p_error i
        let d_error : Vec n := fun i => (s.p_error i - s.p_error_last i) / q
        let cmd : Mat n := fun i j =>
          bmul s.p_gain s.p_error i j + bmul s.i_gain i_error i j
            + bmul s.d_gain d_error i j
        (cmd, { s with
                i_error := i_error
                d_error := d_error
                p_error_last := s.p_error
                cmd := cmd })
  | _ => ((fun _ _ => 0), s)

/-- `PID.update_PID` (pid.py lines 191-238).  `dt0 = none` models `dt=None`
(wall-clock derivation, with `cur_time` standing for `time.time()`):
on the first call the clock reference is initialized to `cur_time` so the
derived `dt` is zero, afterwards `dt` is the difference from the stored
reference, which is then replaced by `cur_time`.  An explicit `dt0` leaves
`last_time` alone. -/
def update_PID {n : ℕ} (s0 : PIDState n) (p_error : Vec n)
    (dt0 : Option PyFloat) (cur_time : ℚ) : Mat n × PIDState n :=
  match dt0 with
  | none =>
      update_core { s0 with last_time := some cur_time } p_error
        (.fin (cur_time - s0.last_time.getD cur_time))
  | some d => update_core s0 p_error d

end PID

/-- Unfolding of the update body on a non-degenerate finite timestep. -/
lemma update_core_fin {n : ℕ} (s : PIDState n) (e : Vec n) (q : ℚ)
    (hq : q ≠ 0) :
    PID.update_core s e (.fin q) =
      ((fun i j => s.p_gain i j * e i
          + s.i_gain i j * (s.i_error i + q * e i)
          + s.d_gain i j * ((e i - s.p_error_last i) / q)),
       { s with
         p_error := e
         i_error := fun i => s.i_error i + q * e i
         d_error := fun i => (e i - s.p_error_last i) / q
         p_error_last := e
         cmd := fun i j => s.p_gain i j * e i
           + s.i_gain i j * (s.i_error i + q * e i)
           + s.d_gain i j * ((e i - s.p_error_last i) / q) }) := by
  simp [PID.update_core, bmul, hq]

/-- Unfolding of the update body on a degenerate timestep: the fresh zero
matrix is returned, and the only field written is `p_error`. -/
lemma update_core_degen {n : ℕ} (s : PIDState n) (e : Vec n) (d : PyFloat)
    (hd : d = .fin 0 ∨ d = .nan ∨ d = .inf ∨ d = .ninf) :
    PID.update_core s e d = ((fun _ _ => 0), { s with p_error := e }) := by
  rcases hd with h | h | h | h <;> subst h <;> simp [PID.update_core]

/-- `update_PID` with an explicit timestep is the bare update body. -/
lemma update_PID_some {n : ℕ} (s : PIDState n) (e : Vec n) (d : PyFloat)
    (ct : ℚ) : PID.update_PID s e (some d) ct = PID.update_core s e d := rfl

/-- Unfolding of `update_PID` when `dt=None` and the clock has not advanced
since the stored reference: the derived `dt` is zero, so only the clock
reference and `p_error` are written. -/
lemma update_PID_none_same_time {n : ℕ} (s : PIDState n) (e : Vec n) (ct : ℚ)
    (h : s.last_time = some ct) :
    PID.update_PID s e none ct =
      ((fun _ _ => 0), { s with p_error := e, last_time := some ct }) := by
  rw [PID.update_PID, h]
  simpa using
    update_core_degen { s with last_time := some ct } e (.fin (ct - ct))
      (Or.inl (by norm_num))

/-- The update body never touches the gain fields. -/
lemma update_core_gains {n : ℕ} (s : PIDState n) (e : Vec n) (d : PyFloat) :
    (PID.update_core s e d).2.p_gain = s.p_gain
    ∧ (PID.update_core s e d).2.i_gain = s.i_gain
    ∧ (PID.update_core s e d).2.d_gain = s.d_gain := by
  rcases d with q | _ | _ | _
  · by_cases hq : q = 0
    · rw [update_core_degen s e (.fin q) (Or.inl (by rw [hq]))]
      exact ⟨rfl, rfl, rfl⟩
    · rw [update_core_fin s e q hq]
      exact ⟨rfl, rfl, rfl⟩
  all_goals
    rw [update_core_degen s e _ (by simp)]
    exact ⟨rfl, rfl, rfl⟩

/-- Iterated calls to `update_PID` with a constant error vector and a
constant explicit timestep (state after `k` calls). -/
def updateN {n : ℕ} (e : Vec n) (d : PyFloat) : ℕ → PIDState n → PIDState n
  | 0, s => s
  | k + 1, s => (PID.update_PID (updateN e d k s) e (some d) 0).2

/-- `updateN` never touches the gain fields. -/
lemma updateN_gains {n : ℕ} (e : Vec n) (d : PyFloat) (k : ℕ) (s : PIDState n) :
    (updateN e d k s).p_gain = s.p_gain
    ∧ (updateN e d k s).i_gain = s.i_gain
    ∧ (updateN e d k s).d_gain = s.d_gain := by
  induction k with
  | zero => exact ⟨rfl, rfl, rfl⟩
  | succ k ih =>
      have h := update_core_gains (updateN e d k s) e d
      exact ⟨h.1.trans ih.1, h.2.1.trans ih.2.1, h.2.2.trans ih.2.2⟩

/-- Accumulated integral error after `k` constant-error constant-step calls
starting from a reset controller. -/
lemma updateN_i_error {n : ℕ} (s : PIDState n) (e : Vec n) (q : ℚ)
    (hq : q ≠ 0) (k : ℕ) :
    (updateN e (.fin q) k (PID.reset s)).i_error = fun i => (k : ℚ) * q * e i := by
  induction k with
  | zero =>
      funext i
      simp [updateN, PID.reset]
  | succ k ih =>
      funext i
      simp only [updateN, update_PID_some,
        update_core_fin (updateN e (.fin q) k (PID.reset s)) e q hq, ih]
      push_cast
      ring

/-- C1.  On a non-degenerate explicit timestep, the matrix returned by
`update_PID` (also stored in the `cmd` field) is square of the DOF
dimension, its diagonal entry at each DOF is the per-DOF sum of the
proportional, integral and derivative terms, and — for the documented gain
configuration, per-DOF gains carried on the diagonal of the square gain
matrices — every off-diagonal entry is zero. -/
theorem pid_update_cmd_diagonal {n : ℕ} (s : PIDState n) (e : Vec n)
    (q ct : ℚ) (hq : q ≠ 0)
    (hp : IsDiag s.p_gain) (hi : IsDiag s.i_gain) (hd : IsDiag s.d_gain) :
    (∀ i : Fin n, (PID.update_PID s e (some (.fin q)) ct).1 i i =
        s.p_gain i i * e i + s.i_gain i i * (s.i_error i + q * e i)
          + s.d_gain i i * ((e i - s.p_error_last i) / q))
    ∧ (∀ i j : Fin n, i ≠ j → (PID.update_PID s e (some (.fin q)) ct).1 i j = 0)
    ∧ (PID.update_PID s e (some (.fin q)) ct).2.cmd
        = (PID.update_PID s e (some (.fin q)) ct).1 := by
  rw [update_PID_some, update_core_fin s e q hq]
  refine ⟨fun i => rfl, fun i j hij => ?_, rfl⟩
  simp [hp i j hij, hi i j hij, hd i j hij]

/-- Concrete diagonal-gain controller state used to witness the PID claims:
gains 2, 3, 5 on the diagonal, nonzero error state, a nonzero stored
command. -/
def wPid : PIDState 2 :=
  { p_gain := fun i j => if i = j then 2 else 0
    i_gain := fun i j => if i = j then 3 else 0
    d_gain := fun i j => if i = j then 5 else 0
    i_min := fun _ => -1
    i_max := fun _ => 1
    p_error_last := fun _ => 0
    p_error := fun _ => 7
    d_error := fun _ => 11
    i_error := fun _ => 1
    cmd := fun _ _ => 42
    last_time := some 9 }

/-- Concrete error vector for the PID witnesses. -/
def wErr : Vec 2 := fun _ => 4

/-- Witness for C1 at the concrete state `wPid`, error `wErr`, `dt = 2`. -/
theorem pid_update_cmd_diagonal_witness :
    ((2 : ℚ) ≠ 0 ∧ IsDiag wPid.p_gain ∧ IsDiag wPid.i_gain ∧ IsDiag wPid.d_gain)
    ∧ ((∀ i : Fin 2, (PID.update_PID wPid wErr (some (.fin 2)) 0).1 i i =
          wPid.p_gain i i * wErr i + wPid.i_gain i i * (wPid.i_error i + 2 * wErr i)
            + wPid.d_gain i i * ((wErr i - wPid.p_error_last i) / 2))
        ∧ (∀ i j : Fin 2, i ≠ j →
            (PID.update_PID wPid wErr (some (.fin 2)) 0).1 i j = 0)
        ∧ (PID.update_PID wPid wErr (some (.fin 2)) 0).2.cmd
            = (PID.update_PID wPid wErr (some (.fin 2)) 0).1) :=
  ⟨⟨by norm_num, by decide, by decide, by decide⟩,
    pid_update_cmd_diagonal wPid wErr 2 0 (by norm_num)
      (by decide) (by decide) (by decide)⟩

/-- C3.  On a degenerate explicit timestep (`0`, NaN, `+Inf` or `-Inf`) the
call returns the all-zero matrix and leaves `i_error`, `d_error`,
`p_error_last` and `last_time` untouched; and when `dt=None` makes the
clock-derivation step run (clock unchanged, so the derived `dt` is zero),
`last_time` receives exactly the clock step's value and nothing else of the
integral / derivative state moves. -/
theorem pid_degenerate_dt_zero_cmd_preserves_state {n : ℕ} (s : PIDState n)
    (e : Vec n) (d : PyFloat) (ct : ℚ)
    (hd : d = .fin 0 ∨ d = .nan ∨ d = .inf ∨ d = .ninf) :
    (PID.update_PID s e (some d) ct).1 = (fun _ _ => 0)
    ∧ (PID.update_PID s e (some d) ct).2.i_error = s.i_error
    ∧ (PID.update_PID s e (some d) ct).2.d_error = s.d_error
    ∧ (PID.update_PID s e (some d) ct).2.p_error_last = s.p_error_last
    ∧ (PID.update_PID s e (some d) ct).2.last_time = s.last_time
    ∧ (s.last_time = some ct →
        PID.update_PID s e none ct
          = ((fun _ _ => 0), { s with p_error := e, last_time := some ct })) := by
  rw [update_PID_some, update_core_degen s e d hd]
  exact ⟨rfl, rfl, rfl, rfl, rfl, fun h => update_PID_none_same_time s e ct h⟩

/-- Witness for C3 at the concrete state `wPid` with `dt = NaN`. -/
theorem pid_degenerate_dt_zero_cmd_preserves_state_witness :
    (PyFloat.nan = .fin 0 ∨ PyFloat.nan = .nan ∨ PyFloat.nan = .inf
        ∨ PyFloat.nan = .ninf)
    ∧ ((PID.update_PID wPid wErr (some .nan) 9).1 = (fun _ _ => 0)
        ∧ (PID.update_PID wPid wErr (some .nan) 9).2.i_error = wPid.i_error
        ∧ (PID.update_PID wPid wErr (some .nan) 9).2.d_error = wPid.d_error
        ∧ (PID.update_PID wPid wErr (some .nan) 9).2.p_error_last = wPid.p_error_last
        ∧ (PID.update_PID wPid wErr (some .nan) 9).2.last_time = wPid.last_time
        ∧ (wPid.last_time = some 9 →
            PID.update_PID wPid wErr none 9
              = ((fun _ _ => 0), { wPid with p_error := wErr, last_time := some 9 }))) :=
  ⟨Or.inr (Or.inl rfl),
    pid_degenerate_dt_zero_cmd_preserves_state wPid wErr .nan 9 (Or.inr (Or.inl rfl))⟩

/-- C4.  From a reset controller, `m` constant-error calls with the same
non-degenerate `dt = q` accumulate `i_error = m * q * e` — for arbitrary
`i_min` / `i_max` bounds, i.e. no clamping is applied during accumulation —
and the command returned by the next call decomposes with integral
contribution exactly `i_gain` broadcast-times the accumulated `i_error`. -/
theorem pid_integral_accumulation {n : ℕ} (s : PIDState n) (e : Vec n)
    (q : ℚ) (hq : q ≠ 0) (m : ℕ) :
    (updateN e (.fin q) m (PID.reset s)).i_error = (fun i => (m : ℚ) * q * e i)
    ∧ (PID.update_PID (updateN e (.fin q) m (PID.reset s)) e (some (.fin q)) 0).1
        = fun i j => s.p_gain i j * e i
            + s.i_gain i j * (((m : ℚ) + 1) * q * e i)
            + s.d_gain i j
              * ((e i - (updateN e (.fin q) m (PID.reset s)).p_error_last i) / q) := by
  refine ⟨updateN_i_error s e q hq m, ?_⟩
  have hg := updateN_gains e (.fin q) m (PID.reset s)
  have hie := updateN_i_error s e q hq m
  rw [update_PID_some,
    update_core_fin (updateN e (.fin q) m (PID.reset s)) e q hq]
  funext i j
  simp only [hg.1, hg.2.1, hg.2.2, hie]
  simp only [PID.reset]
  ring

/-- Witness for C4: three calls with `dt = 2` starting from `PID.reset wPid`. -/
theorem pid_integral_accumulation_witness :
    (2 : ℚ) ≠ 0
    ∧ ((updateN wErr (.fin 2) 3 (PID.reset wPid)).i_error
          = (fun i => ((3 : ℕ) : ℚ) * 2 * wErr i)
        ∧ (PID.update_PID (updateN wErr (.fin 2) 3 (PID.reset wPid)) wErr
              (some (.fin 2)) 0).1
            = fun i j => wPid.p_gain i j * wErr i
                + wPid.i_gain i j * ((((3 : ℕ) : ℚ) + 1) * 2 * wErr i)
                + wPid.d_gain i j
                  * ((wErr i - (updateN wErr (.fin 2) 3 (PID.reset wPid)).p_error_last i) / 2)) :=
  ⟨by norm_num, pid_integral_accumulation wPid wErr 2 (by norm_num) 3⟩

/-- C10.  On the degenerate-dt path, the stored `p_error` field IS
overwritten with the new error argument before the early return, and the
returned all-zero matrix is NOT stored: the `cmd` field keeps its pre-call
value. -/
theorem pid_degenerate_dt_overwrites_p_error_keeps_cmd {n : ℕ}
    (s : PIDState n) (e : Vec n) (d : PyFloat) (ct : ℚ)
    (hd : d = .fin 0 ∨ d = .nan ∨ d = .inf ∨ d = .ninf) :
    (PID.update_PID s e (some d) ct).2.p_error = e
    ∧ (PID.update_PID s e (some d) ct).2.cmd = s.cmd
    ∧ (PID.update_PID s e (some d) ct).1 = (fun _ _ => 0) := by
  rw [update_PID_some, update_core_degen s e d hd]
  exact ⟨rfl, rfl, rfl⟩

/-- Witness for C10: a degenerate call (`dt = 0`) made right after a
non-degenerate one keeps the non-degenerate command stored in `cmd`, which
is not the all-zero matrix (its top-left entry is `45`). -/
theorem pid_degenerate_dt_overwrites_p_error_keeps_cmd_witness :
    (PyFloat.fin 0 = .fin 0 ∨ PyFloat.fin 0 = .nan ∨ PyFloat.fin 0 = .inf
        ∨ PyFloat.fin 0 = .ninf)
    ∧ ((PID.update_PID (PID.update_PID wPid wErr (some (.fin 2)) 0).2 wErr
          (some (.fin 0)) 0).2.p_error = wErr
        ∧ (PID.update_PID (PID.update_PID wPid wErr (some (.fin 2)) 0).2 wErr
            (some (.fin 0)) 0).2.cmd = (PID.update_PID wPid wErr (some (.fin 2)) 0).2.cmd
        ∧ (PID.update_PID (PID.update_PID wPid wErr (some (.fin 2)) 0).2 wErr
            (some (.fin 0)) 0).1 = (fun _ _ => 0))
    ∧ (PID.update_PID wPid wErr (some (.fin 2)) 0).2.cmd ≠ (fun _ _ => 0) :=
  ⟨Or.inl rfl,
    pid_degenerate_dt_overwrites_p_error_keeps_cmd
      (PID.update_PID wPid wErr (some (.fin 2)) 0).2 wErr (.fin 0) 0 (Or.inl rfl),
    by
      rw [update_PID_some, update_core_fin wPid wErr 2 (by norm_num)]
      intro h
      have h0 := congrFun (congrFun h 0) 0
      norm_num [wPid, wErr] at h0⟩

/-- A 3-vector with finite components (`geometry_msgs` `Vector3` carrying
ordinary finite readings). -/
structure V3 where
  x : ℚ
  y : ℚ
  z : ℚ
deriving DecidableEq

/-- A twist: linear and angular velocity (`geometry_msgs` `Twist`). -/
structure TwistCmd where
  linear : V3
  angular : V3
deriving DecidableEq

/-- The rotation part of a looked-up transform, as the 3x3 matrix that
`scipy` `r.apply` multiplies the vector by. -/
abbrev Rot3 := Fin 3 → Fin 3 → ℚ

/-- `TestVel.transform_vector` (demo_recorder.py lines 340-354): applies
the rotation matrix of the transform to the vector. -/
def transform_vector (r : Rot3) (v : V3) : V3 :=
  { x := r 0 0 * v.x + r 0 1 * v.y + r 0 2 * v.z
    y := r 1 0 * v.x + r 1 1 * v.y + r 1 2 * v.z
    z := r 2 0 * v.x + r 2 1 * v.y + r 2 2 * v.z }

/-- The comparison `math.sqrt(x**2 + y**2 + z**2) < threshold` for a finite
vector and a finite threshold, encoded without the irrational square root:
since the magnitude is the square root of a nonnegative number, it is below
`t` exactly when `t` is positive and the sum of squares is below `t^2`. -/
def magLt (v : V3) (t : ℚ) : Bool :=
  decide (0 < t ∧ v.x ^ 2 + v.y ^ 2 + v.z ^ 2 < t ^ 2)

/-- `TestVel.nullify_small_magnitudes` (demo_recorder.py lines 357-362)
restricted to finite inputs, as fed to it by `timer_callback`: for finite
components the magnitude is never NaN, so only the threshold comparison
decides.  (The full float behaviour, NaN included, is modelled separately
by `nullify_small_magnitudes` below.) -/
def nullify_small_finite (v : V3) (t : ℚ) : V3 :=
  if magLt v t then { x := 0, y := 0, z := 0 } else v

/-- A 3-vector whose components are Python floats, for the conditioning
routine whose contract mentions NaN. -/
structure V3F where
  x : PyFloat
  y : PyFloat
  z : PyFloat
deriving DecidableEq

/-- Whether a Python float is NaN. -/
def PyFloat.isNanP : PyFloat → Bool
  | .nan => true
  | _ => false

/-- Whether a Python float is an infinity. -/
def PyFloat.isInfP : PyFloat → Bool
  | .inf => true
  | .ninf => true
  | _ => false

/-- Some component of the vector is NaN — exactly when the float magnitude
`sqrt(x**2 + y**2 + z**2)` evaluates to NaN. -/
def V3F.hasNan (v : V3F) : Bool := v.x.isNanP || v.y.isNanP || v.z.isNanP

/-- Some component of the vector is infinite; with no NaN present the float
magnitude then evaluates to `+inf`. -/
def V3F.hasInf (v : V3F) : Bool := v.x.isInfP || v.y.isInfP || v.z.isInfP

/-- The finite value of a Python float (0 for NaN / infinities; only used
where those cases are excluded). -/
def PyFloat.ratOf : PyFloat → ℚ
  | .fin q => q
  | _ => 0

/-- Sum of squares of the components, meaningful when all are finite. -/
def V3F.sumSq (v : V3F) : ℚ :=
  v.x.ratOf ^ 2 + v.y.ratOf ^ 2 + v.z.ratOf ^ 2

/-- The float comparison `magnitude < threshold` where
`magnitude = math.sqrt(x**2 + y**2 + z**2)`: false when the magnitude is
NaN (any component NaN) or `+inf` (an infinite component, no NaN), and
otherwise the finite square-root comparison of `magLt`. -/
def magLtF (v : V3F) (t : ℚ) : Bool :=
  if v.hasNan then false
  else if v.hasInf then false
  else decide (0 < t ∧ v.sumSq < t ^ 2)

/-- `np.isnan(magnitude)` for the float magnitude. -/
def magIsNan (v : V3F) : Bool := v.hasNan

/-- `TestVel.nullify_small_magnitudes` (demo_recorder.py lines 357-362):
returns the zero vector when the Euclidean magnitude is below the
threshold or is NaN, otherwise the input unchanged. -/
def nullify_small_magnitudes (v : V3F) (t : ℚ) : V3F :=
  if magLtF v t || magIsNan v then { x := .fin 0, y := .fin 0, z := .fin 0 }
  else v

/-- The three transform-lookup failure kinds caught by `timer_callback`
(`LookupException`, `ConnectivityException`, `ExtrapolationException`). -/
inductive TFErr where
  | lookup : TFErr
  | connectivity : TFErr
  | extrapolation : TFErr
deriving DecidableEq

/-- The spec's motion-mode enumeration; the code carries it as the boolean
`self.interaction` (`False` = free motion). -/
inductive MotionMode where
  | FreeMotion : MotionMode
  | Interaction : MotionMode
deriving DecidableEq

/-- The `TestVel` node state touched by the force-processing tick and the
trajectory emitter: the latest force/torque sample, the interaction flag,
the motion-permitted flag `can_move`, the command matrix, the previous
commanded twist, the last conditioned force, the compliance gains, and the
first observed joint-position sample (None until one arrives). -/
structure NodeState (n : ℕ) where
  latest_wrench : Option (V3 × V3)
  interaction : Bool
  can_move : Bool
  cmd : Mat n
  current_twist : TwistCmd
  curr_force : V3
  Kp : ℚ
  Kd : ℚ
  initial_joint_positions : Option (Vec n)

/-- The motion mode encoded by the `interaction` flag. -/
def NodeState.mode {n : ℕ} (s : NodeState n) : MotionMode :=
  if s.interaction then .Interaction else .FreeMotion

/-- The compliance law of `timer_callback` (demo_recorder.py lines
318-328): each linear axis is `(1/Kp) * force_axis - Kd * previous
linear axis`, each angular axis is `(1/Kp) * torque_axis - Kd * previous
angular axis`. -/
def complianceStep (force torque : V3) (prev : TwistCmd) (Kp Kd : ℚ) :
    TwistCmd :=
  { linear :=
      { x := (1 / Kp) * force.x - Kd * prev.linear.x
        y := (1 / Kp) * force.y - Kd * prev.linear.y
        z := (1 / Kp) * force.z - Kd * prev.linear.z }
    angular :=
      { x := (1 / Kp) * torque.x - Kd * prev.angular.x
        y := (1 / Kp) * torque.y - Kd * prev.angular.y
        z := (1 / Kp) * torque.z - Kd * prev.angular.z } }

/-- `TestVel.timer_callback` (demo_recorder.py lines 287-337), the 500 Hz
force-processing tick.  `tf` is the outcome of the transform lookup, the
first statement of the guarded block: on failure the exception is caught,
only a warning is logged, and the pre-tick state stands.  Otherwise force
and torque are rotated, conditioned with threshold 3.0, and the interaction
state machine runs: below the 3.0 interaction threshold the tick clears the
interaction flag, permits motion and zeroes the command matrix; at or above
it the tick sets the interaction flag, forbids motion, zeroes the command
matrix, computes the compliance twist against the previous twist and
publishes it (the returned `Option TwistCmd`). -/
def timer_callback {n : ℕ} (s : NodeState n) (tf : Except TFErr Rot3) :
    NodeState n × Option TwistCmd :=
  match s.latest_wrench with
  | none => (s, none)
  | some (rawF, rawT) =>
      match tf with
      | .error _ => (s, none)
      | .ok r =>
          let force := transform_vector r rawF
          let torque0 := transform_vector r rawT
          let curr_force := nullify_small_finite force 3
          let torque := nullify_small_finite torque0 3
          if magLt curr_force 3 then
            ({ s with
                curr_force := curr_force
                interaction := false
                can_move := true
                cmd := fun _ _ => 0 }, none)
          else
            let twist := complianceStep curr_force torque s.current_twist s.Kp s.Kd
            ({ s with
                curr_force := curr_force
                interaction := true
                can_move := false
                cmd := fun _ _ => 0
                current_twist := twist }, some twist)

/-- `TestVel.publish_trajectory` (demo_recorder.py lines 414-425), the
10 Hz trajectory emitter: no output before the first joint-position sample,
no output when motion is not permitted, otherwise the diagonal of the
command matrix as a flat per-DOF velocity vector. -/
def publish_trajectory {n : ℕ} (s : NodeState n) : Option (Vec n) :=
  match s.initial_joint_positions with
  | none => none
  | some _ => if s.can_move then some (fun i => s.cmd i i) else none

/-- Unfolding of a successful tick whose conditioned force magnitude is
below the interaction threshold. -/
lemma timer_callback_ok_below {n : ℕ} (s : NodeState n) (r : Rot3)
    (fr tq : V3) (hw : s.latest_wrench = some (fr, tq))
    (hb : magLt (nullify_small_finite (transform_vector r fr) 3) 3 = true) :
    timer_callback s (.ok r) =
      ({ s with
          curr_force := nullify_small_finite (transform_vector r fr) 3
          interaction := false
          can_move := true
          cmd := fun _ _ => 0 }, none) := by
  simp [timer_callback, hw, hb]

/-- Unfolding of a successful tick whose conditioned force magnitude is not
below the interaction threshold. -/
lemma timer_callback_ok_above {n : ℕ} (s : NodeState n) (r : Rot3)
    (fr tq : V3) (hw : s.latest_wrench = some (fr, tq))
    (hb : magLt (nullify_small_finite (transform_vector r fr) 3) 3 = false) :
    timer_callback s (.ok r) =
      ({ s with
          curr_force := nullify_small_finite (transform_vector r fr) 3
          interaction := true
          can_move := false
          cmd := fun _ _ => 0
          current_twist := complianceStep
            (nullify_small_finite (transform_vector r fr) 3)
            (nullify_small_finite (transform_vector r tq) 3)
            s.current_twist s.Kp s.Kd },
        some (complianceStep
          (nullify_small_finite (transform_vector r fr) 3)
          (nullify_small_finite (transform_vector r tq) 3)
          s.current_twist s.Kp s.Kd)) := by
  simp [timer_callback, hw, hb]

/-- C8.  If the transform lookup fails with any of the three failure kinds,
the tick mutates nothing: interaction mode, motion-permitted flag, command
matrix, previous twist — the whole node state — keep their pre-tick values
and nothing is published. -/
theorem transform_failure_preserves_state {n : ℕ} (s : NodeState n)
    (err : TFErr) : timer_callback s (.error err) = (s, none) := by
  rcases hw : s.latest_wrench with _ | ⟨fr, tq⟩ <;> simp [timer_callback, hw]

/-- C2 counterexample.  A concrete tick whose conditioned force magnitude
is below 3.0 (a raw sample of magnitude 2.0, suppressed to zero by the
conditioner): the free-motion branch is taken, but the command matrix is
NOT left unchanged — the pre-tick command (entry 5) is reset to zero. -/
def cexRot : Rot3 := fun i j => if i = j then 1 else 0

/-- Pre-tick node state for the C2 counterexample: a nonzero command matrix
and a pending wrench of force magnitude 2.0. -/
def cexNode : NodeState 1 :=
  { latest_wrench := some ({ x := 2, y := 0, z := 0 }, { x := 0, y := 0, z := 0 })
    interaction := true
    can_move := false
    cmd := fun _ _ => 5
    current_twist :=
      { linear := { x := 0, y := 0, z := 0 }, angular := { x := 0, y := 0, z := 0 } }
    curr_force := { x := 0, y := 0, z := 0 }
    Kp := 1
    Kd := 1 / 10
    initial_joint_positions := none }

/-- C2 is false as stated: on this below-threshold tick the mode does
become free motion and motion is permitted, but the command matrix changes
(it is zeroed, not left unchanged from the trajectory-tracking path). -/
theorem freemotion_cmd_not_unchanged_cex :
    magLt (nullify_small_finite
        (transform_vector cexRot { x := 2, y := 0, z := 0 }) 3) 3 = true
    ∧ (timer_callback cexNode (.ok cexRot)).1.mode = .FreeMotion
    ∧ (timer_callback cexNode (.ok cexRot)).1.can_move = true
    ∧ (timer_callback cexNode (.ok cexRot)).1.cmd ≠ cexNode.cmd := by
  have htv : transform_vector cexRot { x := 2, y := 0, z := 0 }
      = { x := 2, y := 0, z := 0 } := by
    simp [transform_vector, cexRot]
  have hnul : nullify_small_finite ({ x := 2, y := 0, z := 0 } : V3) 3
      = { x := 0, y := 0, z := 0 } := by
    norm_num [nullify_small_finite, magLt]
  have hb : magLt (nullify_small_finite
      (transform_vector cexRot { x := 2, y := 0, z := 0 }) 3) 3 = true := by
    rw [htv, hnul]
    norm_num [magLt]
  refine ⟨hb, ?_⟩
  rw [timer_callback_ok_below cexNode cexRot _ _ rfl hb]
  refine ⟨rfl, rfl, fun h => ?_⟩
  have h0 := congrFun (congrFun h 0) 0
  norm_num [cexNode] at h0

/-- C2 amended.  On every successful force-processing tick whose
conditioned force magnitude is below the 3.0 interaction threshold, the
mode becomes `FreeMotion`, the motion-permitted flag becomes true, and the
command matrix is reset to zero (the trajectory-tracking command is
discarded, not left unchanged). -/
theorem freemotion_branch_resets_cmd {n : ℕ} (s : NodeState n) (r : Rot3)
    (fr tq : V3) (hw : s.latest_wrench = some (fr, tq))
    (hb : magLt (nullify_small_finite (transform_vector r fr) 3) 3 = true) :
    (timer_callback s (.ok r)).1.mode = .FreeMotion
    ∧ (timer_callback s (.ok r)).1.can_move = true
    ∧ (timer_callback s (.ok r)).1.cmd = (fun _ _ => 0)
    ∧ (timer_callback s (.ok r)).2 = none := by
  rw [timer_callback_ok_below s r fr tq hw hb]
  exact ⟨rfl, rfl, rfl, rfl⟩

/-- Witness for the amended C2 at the concrete below-threshold tick of the
counterexample. -/
theorem freemotion_branch_resets_cmd_witness :
    cexNode.latest_wrench
        = some ({ x := 2, y := 0, z := 0 }, { x := 0, y := 0, z := 0 })
    ∧ magLt (nullify_small_finite
        (transform_vector cexRot { x := 2, y := 0, z := 0 }) 3) 3 = true
    ∧ ((timer_callback cexNode (.ok cexRot)).1.mode = .FreeMotion
        ∧ (timer_callback cexNode (.ok cexRot)).1.can_move = true
        ∧ (timer_callback cexNode (.ok cexRot)).1.cmd = (fun _ _ => 0)
        ∧ (timer_callback cexNode (.ok cexRot)).2 = none) := by
  have hb : magLt (nullify_small_finite
      (transform_vector cexRot { x := 2, y := 0, z := 0 }) 3) 3 = true := by
    have htv : transform_vector cexRot { x := 2, y := 0, z := 0 }
        = { x := 2, y := 0, z := 0 } := by
      simp [transform_vector, cexRot]
    rw [htv]
    norm_num [nullify_small_finite, magLt]
  exact ⟨rfl, hb, freemotion_branch_resets_cmd cexNode cexRot _ _ rfl hb⟩

/-- C6.  On every successful force-processing tick: if the conditioned
force magnitude is below the 3.0 interaction threshold, the state machine
is in `FreeMotion`, motion is permitted and the command matrix is reset to
zero with no twist published; otherwise it is in `Interaction`, motion is
forbidden, the command matrix is reset to zero, the compliance twist is
published instead, and the joint-velocity emitter stays silent on the
resulting state. -/
theorem interaction_state_machine_branches {n : ℕ} (s : NodeState n)
    (r : Rot3) (fr tq : V3) (hw : s.latest_wrench = some (fr, tq)) :
    (magLt (nullify_small_finite (transform_vector r fr) 3) 3 = true →
      (timer_callback s (.ok r)).1.mode = .FreeMotion
      ∧ (timer_callback s (.ok r)).1.can_move = true
      ∧ (timer_callback s (.ok r)).1.cmd = (fun _ _ => 0)
      ∧ (timer_callback s (.ok r)).2 = none)
    ∧ (magLt (nullify_small_finite (transform_vector r fr) 3) 3 = false →
      (timer_callback s (.ok r)).1.mode = .Interaction
      ∧ (timer_callback s (.ok r)).1.can_move = false
      ∧ (timer_callback s (.ok r)).1.cmd = (fun _ _ => 0)
      ∧ (timer_callback s (.ok r)).2
          = some (complianceStep
              (nullify_small_finite (transform_vector r fr) 3)
              (nullify_small_finite (transform_vector r tq) 3)
              s.current_twist s.Kp s.Kd)
      ∧ publish_trajectory (timer_callback s (.ok r)).1 = none) := by
  constructor
  · intro hb
    rw [timer_callback_ok_below s r fr tq hw hb]
    exact ⟨rfl, rfl, rfl, rfl⟩
  · intro hb
    rw [timer_callback_ok_above s r fr tq hw hb]
    refine ⟨rfl, rfl, rfl, rfl, ?_⟩
    rcases hp : s.initial_joint_positions with _ | p <;>
      simp [publish_trajectory, hp]

/-- Concrete above-threshold tick used to witness C5 and C6: identity
rotation, raw force (4,0,0) of magnitude 4.0, unit stiffness, damping 0.1,
zero previous twist. -/
def wNode : NodeState 2 :=
  { latest_wrench := some ({ x := 4, y := 0, z := 0 }, { x := 0, y := 0, z := 0 })
    interaction := false
    can_move := true
    cmd := fun _ _ => 7
    current_twist :=
      { linear := { x := 0, y := 0, z := 0 }, angular := { x := 0, y := 0, z := 0 } }
    curr_force := { x := 0, y := 0, z := 0 }
    Kp := 1
    Kd := 1 / 10
    initial_joint_positions := some (fun _ => 0) }

/-- Witness for C6 at the concrete above-threshold tick `wNode`. -/
theorem interaction_state_machine_branches_witness :
    wNode.latest_wrench
        = some ({ x := 4, y := 0, z := 0 }, { x := 0, y := 0, z := 0 })
    ∧ magLt (nullify_small_finite
        (transform_vector cexRot { x := 4, y := 0, z := 0 }) 3) 3 = false
    ∧ ((timer_callback wNode (.ok cexRot)).1.mode = .Interaction
        ∧ (timer_callback wNode (.ok cexRot)).1.can_move = false
        ∧ (timer_callback wNode (.ok cexRot)).1.cmd = (fun _ _ => 0)
        ∧ (timer_callback wNode (.ok cexRot)).2
            = some (complianceStep
                (nullify_small_finite (transform_vector cexRot { x := 4, y := 0, z := 0 }) 3)
                (nullify_small_finite (transform_vector cexRot { x := 0, y := 0, z := 0 }) 3)
                wNode.current_twist wNode.Kp wNode.Kd)
        ∧ publish_trajectory (timer_callback wNode (.ok cexRot)).1 = none) := by
  have htv : transform_vector cexRot { x := 4, y := 0, z := 0 }
      = { x := 4, y := 0, z := 0 } := by
    simp [transform_vector, cexRot]
  have hb : magLt (nullify_small_finite
      (transform_vector cexRot { x := 4, y := 0, z := 0 }) 3) 3 = false := by
    rw [htv]
    norm_num [nullify_small_finite, magLt]
  exact ⟨rfl, hb,
    (interaction_state_machine_branches wNode cexRot _ _ rfl).2 hb⟩

/-- C5.  On every successful above-threshold tick (with nonzero stiffness,
as configured), the published twist — also stored as the next damping
reference — has each linear axis equal to `(1/Kp) * conditioned force axis
- Kd * previous twist linear axis` and each angular axis equal to
`(1/Kp) * conditioned torque axis - Kd * previous twist angular axis`. -/
theorem compliance_twist_formula {n : ℕ} (s : NodeState n) (r : Rot3)
    (fr tq : V3) (hw : s.latest_wrench = some (fr, tq))
    (hb : magLt (nullify_small_finite (transform_vector r fr) 3) 3 = false)
    (hKp : s.Kp ≠ 0) :
    (timer_callback s (.ok r)).2 = some
      { linear :=
          { x := (1 / s.Kp) * (nullify_small_finite (transform_vector r fr) 3).x
              - s.Kd * s.current_twist.linear.x
            y := (1 / s.Kp) * (nullify_small_finite (transform_vector r fr) 3).y
              - s.Kd * s.current_twist.linear.y
            z := (1 / s.Kp) * (nullify_small_finite (transform_vector r fr) 3).z
              - s.Kd * s.current_twist.linear.z }
        angular :=
          { x := (1 / s.Kp) * (nullify_small_finite (transform_vector r tq) 3).x
              - s.Kd * s.current_twist.angular.x
            y := (1 / s.Kp) * (nullify_small_finite (transform_vector r tq) 3).y
              - s.Kd * s.current_twist.angular.y
            z := (1 / s.Kp) * (nullify_small_finite (transform_vector r tq) 3).z
              - s.Kd * s.current_twist.angular.z } }
    ∧ (timer_callback s (.ok r)).1.current_twist
        = complianceStep
            (nullify_small_finite (transform_vector r fr) 3)
            (nullify_small_finite (transform_vector r tq) 3)
            s.current_twist s.Kp s.Kd := by
  rw [timer_callback_ok_above s r fr tq hw hb]
  exact ⟨rfl, rfl⟩

/-- Witness for C5 at the tick `wNode`: `Kp = 1.0`, `Kd = 0.1`, previous
twist linear-x `0.0`, conditioned force x `4.0` — and the published
linear-x formula indeed evaluates to `4.0`. -/
theorem compliance_twist_formula_witness :
    wNode.latest_wrench
        = some ({ x := 4, y := 0, z := 0 }, { x := 0, y := 0, z := 0 })
    ∧ magLt (nullify_small_finite
        (transform_vector cexRot { x := 4, y := 0, z := 0 }) 3) 3 = false
    ∧ wNode.Kp ≠ 0
    ∧ ((timer_callback wNode (.ok cexRot)).2 = some
        { linear :=
            { x := (1 / wNode.Kp)
                * (nullify_small_finite (transform_vector cexRot { x := 4, y := 0, z := 0 }) 3).x
                - wNode.Kd * wNode.current_twist.linear.x
              y := (1 / wNode.Kp)
                * (nullify_small_finite (transform_vector cexRot { x := 4, y := 0, z := 0 }) 3).y
                - wNode.Kd * wNode.current_twist.linear.y
              z := (1 / wNode.Kp)
                * (nullify_small_finite (transform_vector cexRot { x := 4, y := 0, z := 0 }) 3).z
                - wNode.Kd * wNode.current_twist.linear.z }
          angular :=
            { x := (1 / wNode.Kp)
                * (nullify_small_finite (transform_vector cexRot { x := 0, y := 0, z := 0 }) 3).x
                - wNode.Kd * wNode.current_twist.angular.x
              y := (1 / wNode.Kp)
                * (nullify_small_finite (transform_vector cexRot { x := 0, y := 0, z := 0 }) 3).y
                - wNode.Kd * wNode.current_twist.angular.y
              z := (1 / wNode.Kp)
                * (nullify_small_finite (transform_vector cexRot { x := 0, y := 0, z := 0 }) 3).z
                - wNode.Kd * wNode.current_twist.angular.z } }
        ∧ (timer_callback wNode (.ok cexRot)).1.current_twist
            = complianceStep
                (nullify_small_finite (transform_vector cexRot { x := 4, y := 0, z := 0 }) 3)
                (nullify_small_finite (transform_vector cexRot { x := 0, y := 0, z := 0 }) 3)
                wNode.current_twist wNode.Kp wNode.Kd)
    ∧ (1 / wNode.Kp)
        * (nullify_small_finite (transform_vector cexRot { x := 4, y := 0, z := 0 }) 3).x
        - wNode.Kd * wNode.current_twist.linear.x = 4 := by
  have htv : transform_vector cexRot { x := 4, y := 0, z := 0 }
      = { x := 4, y := 0, z := 0 } := by
    simp [transform_vector, cexRot]
  have hnul : nullify_small_finite ({ x := 4, y := 0, z := 0 } : V3) 3
      = { x := 4, y := 0, z := 0 } := by
    norm_num [nullify_small_finite, magLt]
  have hb : magLt (nullify_small_finite
      (transform_vector cexRot { x := 4, y := 0, z := 0 }) 3) 3 = false := by
    rw [htv, hnul]
    norm_num [magLt]
  refine ⟨rfl, hb, by norm_num [wNode],
    compliance_twist_formula wNode cexRot _ _ rfl hb (by norm_num [wNode]), ?_⟩
  rw [htv, hnul]
  norm_num [wNode]

/-- C7.  `nullify_small_magnitudes` returns the exact zero vector whenever
the Euclidean magnitude is NaN (some component is NaN) or is below the
threshold (all components finite, positive threshold, sum of squares below
the squared threshold — regardless of direction), and otherwise (finite
magnitude not below the threshold, or infinite magnitude) returns the
input vector unchanged. -/
theorem nullify_small_magnitudes_spec (v : V3F) (t : ℚ) :
    (v.hasNan = true →
      nullify_small_magnitudes v t = { x := .fin 0, y := .fin 0, z := .fin 0 })
    ∧ (v.hasNan = false → v.hasInf = false → 0 < t → v.sumSq < t ^ 2 →
      nullify_small_magnitudes v t = { x := .fin 0, y := .fin 0, z := .fin 0 })
    ∧ (v.hasNan = false → v.hasInf = true → nullify_small_magnitudes v t = v)
    ∧ (v.hasNan = false → v.hasInf = false → ¬(0 < t ∧ v.sumSq < t ^ 2) →
      nullify_small_magnitudes v t = v) := by
  refine ⟨fun h1 => ?_, fun h1 h2 h3 h4 => ?_, fun h1 h2 => ?_, fun h1 h2 h3 => ?_⟩
  · simp [nullify_small_magnitudes, magIsNan, h1]
  · simp [nullify_small_magnitudes, magLtF, magIsNan, h1, h2, h3, h4]
  · simp [nullify_small_magnitudes, magLtF, magIsNan, h1, h2]
  · simp [nullify_small_magnitudes, magLtF, magIsNan, h1, h2, h3]

/-- Witness for C7: the finite vector (1,2,2) of magnitude 3 is zeroed by
threshold 10 (its squared magnitude 9 is below 100), and a vector with a
NaN component is zeroed by any threshold (here 10 as well). -/
theorem nullify_small_magnitudes_spec_witness :
    (V3F.hasNan { x := .fin 1, y := .fin 2, z := .fin 2 } = false
      ∧ V3F.hasInf { x := .fin 1, y := .fin 2, z := .fin 2 } = false
      ∧ (0 : ℚ) < 10
      ∧ V3F.sumSq { x := .fin 1, y := .fin 2, z := .fin 2 } < 10 ^ 2
      ∧ nullify_small_magnitudes { x := .fin 1, y := .fin 2, z := .fin 2 } 10
          = { x := .fin 0, y := .fin 0, z := .fin 0 })
    ∧ (V3F.hasNan { x := .nan, y := .fin 2, z := .fin 0 } = true
      ∧ nullify_small_magnitudes { x := .nan, y := .fin 2, z := .fin 0 } 10
          = { x := .fin 0, y := .fin 0, z := .fin 0 }) :=
  ⟨⟨rfl, rfl, by norm_num,
      by norm_num [V3F.sumSq, PyFloat.ratOf],
      (nullify_small_magnitudes_spec { x := .fin 1, y := .fin 2, z := .fin 2 } 10).2.1
        rfl rfl (by norm_num) (by norm_num [V3F.sumSq, PyFloat.ratOf])⟩,
    ⟨rfl,
      (nullify_small_magnitudes_spec { x := .nan, y := .fin 2, z := .fin 0 } 10).1 rfl⟩⟩

/-- C9.  The trajectory velocity emitter produces nothing before the first
joint-position sample; it produces nothing whenever motion is not permitted
(whatever the command matrix holds); and with motion permitted and a sample
observed it emits the flat vector of the command matrix's diagonal entries,
one per tracked degree of freedom. -/
theorem publish_trajectory_spec {n : ℕ} (s : NodeState n) :
    (s.initial_joint_positions = none → publish_trajectory s = none)
    ∧ (s.can_move = false → publish_trajectory s = none)
    ∧ (∀ p : Vec n, s.initial_joint_positions = some p → s.can_move = true →
        publish_trajectory s = some (fun i => s.cmd i i)) := by
  refine ⟨fun h => by simp [publish_trajectory, h], fun h => ?_,
    fun p hp hc => by simp [publish_trajectory, hp, hc]⟩
  rcases hp : s.initial_joint_positions with _ | p <;>
    simp [publish_trajectory, hp, h]

/-- Node state with three tracked DOFs and command diagonal (1,2,3), a
sample observed, motion permitted. -/
def wTraj : NodeState 3 :=
  { latest_wrench := none
    interaction := false
    can_move := true
    cmd := fun i j => if i = j then (i : ℚ) + 1 else 0
    current_twist :=
      { linear := { x := 0, y := 0, z := 0 }, angular := { x := 0, y := 0, z := 0 } }
    curr_force := { x := 0, y := 0, z := 0 }
    Kp := 1
    Kd := 1 / 10
    initial_joint_positions := some (fun _ => 0) }

/-- Witness for C9: no emission with motion forbidden even though the
command diagonal is (1,2,3); no emission before a sample; emission of
exactly (1,2,3) with motion permitted and a sample observed. -/
theorem publish_trajectory_spec_witness :
    ({ wTraj with can_move := false }.can_move = false
      ∧ publish_trajectory { wTraj with can_move := false } = none)
    ∧ ({ wTraj with initial_joint_positions := none }.initial_joint_positions = none
      ∧ publish_trajectory { wTraj with initial_joint_positions := none } = none)
    ∧ (wTraj.initial_joint_positions = some (fun _ => 0)
      ∧ wTraj.can_move = true
      ∧ publish_trajectory wTraj = some (fun i => wTraj.cmd i i)
      ∧ (fun i : Fin 3 => wTraj.cmd i i) = (fun i : Fin 3 => (i : ℚ) + 1)) :=
  ⟨⟨rfl, (publish_trajectory_spec { wTraj with can_move := false }).2.1 rfl⟩,
    ⟨rfl, (publish_trajectory_spec { wTraj with initial_joint_positions := none }).1 rfl⟩,
    ⟨rfl, rfl,
      (publish_trajectory_spec wTraj).2.2 (fun _ => 0) rfl rfl,
      by funext i; simp [wTraj]⟩⟩

end FerlDemos
